import Mathlib

/-!
Shallow embedding of the CFG-lowering pass in `src/index.ts`.

The TypeScript source walks an ESTree AST and emits a flat list of
statements containing `GOTO` pseudo-calls.  Mutable state (`Context`) is
rendered as explicit state passing over a `Ctx` record; the shared mutable
`Goto` AST nodes (whose numeric literal argument is patched post-hoc) are
rendered as a table `Ctx.gotos` of records, with emitted statements holding
an index into the table (`Stmt.gotoRef`); `materializeStmt` bakes the table
back into literal `GOTO(n)` calls, which is what the patched AST holds once
lowering is done.  Fallible code (`throw` in the source) returns
`Except String`; the thrown messages are reproduced verbatim.  The mutual
recursion of the handlers is made total with a fuel parameter (`.error
"out of fuel"` is a modelling artifact that never fires on the concrete
inputs used below).
-/

namespace Cfg

/-- Literal values of `ESTree.Literal` (`value?: string | boolean | number |
RegExp`); `undef` is a `Literal` node with no `value` field. -/
inductive LitVal where
  | str (s : String)
  | num (n : Int)
  | bool (b : Bool)
  | null
  | regexp (source : String)
  | undef
  deriving DecidableEq, Repr

mutual

/-- Expressions of the supported ESTree subset.  A `TempVar` of the source is
an `Identifier` carrying `kind: 'temp'`, rendered as the `isTemp` flag of
`ident`.  `otherE ty` stands for any expression kind with no handler in
`exprHandlers` (`ty` is its ESTree `type` string). -/
inductive Expr where
  | ident (name : String) (isTemp : Bool)
  | lit (v : LitVal)
  | member (object : Expr) (property : Expr) (computed : Bool)
  | assignE (left : Expr) (op : String) (right : Expr)
  | call (callee : Expr) (args : List Expr)
  | unary (op : String) (argument : Expr)
  | binary (left : Expr) (op : String) (right : Expr)
  | func (id : Option String) (params : List String) (body : Stmt)
  | otherE (ty : String)
  deriving Repr

/-- Statements: the input subset plus the emitted forms.  `gotoRef g` is an
emitted `GOTO` `ExpressionStatement` holding table index `g`; `branchGoto`
is `build.branchingGotoStmt` (an `IfStatement` whose consequent is the
`GOTO` and whose alternate is absent).  `otherS ty` stands for a statement
kind with no handler in `stmtHandlers`. -/
inductive Stmt where
  | exprStmt (e : Expr)
  | debuggerStmt
  | labeled (label : String) (body : Stmt)
  | block (body : List Stmt)
  | breakStmt (label : Option String)
  | returnStmt (argument : Option Expr)
  | continueStmt (label : Option String)
  | ifStmt (test : Expr) (consequent : Stmt) (alternate : Option Stmt)
  | whileStmt (test : Expr) (body : Stmt)
  | doWhileStmt (body : Stmt) (test : Expr)
  | forStmt (ini : Option ForInit) (test : Option Expr) (update : Option Expr) (body : Stmt)
  | emptyStmt
  | switchStmt (disc : Expr) (cases : List SwitchCase)
  | varDecl (decls : List (Expr × Option Expr))
  | funcDecl (id : String) (params : List String) (body : Stmt)
  | throwStmt (argument : Expr)
  | tryStmt (blk : Stmt) (handler : Option (Expr × Stmt)) (finalizer : Option Stmt)
  | withStmt (object : Expr) (body : Stmt)
  | gotoRef (g : Nat)
  | branchGoto (test : Expr) (g : Nat)
  | otherS (ty : String)
  deriving Repr

/-- `ForStatement.init`: `VariableDeclaration | Expression`. -/
inductive ForInit where
  | decl (decls : List (Expr × Option Expr))
  | expr (e : Expr)
  deriving Repr

/-- `SwitchCase`: optional test (absent for `default`) and consequent. -/
inductive SwitchCase where
  | mk (test : Option Expr) (consequent : List Stmt)
  deriving Repr

end

/-- `isTempVar`: an `Identifier` with `kind === 'temp'`. -/
def isTempVar : Expr → Bool
  | .ident _ true => true
  | _ => false

/-- `isSimpleLiteral`: a `Literal` whose value is not a `RegExp`. -/
def isSimpleLiteral : Expr → Bool
  | .lit (.regexp _) => false
  | .lit _ => true
  | _ => false

/-- `Context.__ERROR`. -/
def ERROR_ID : Expr := .ident "__ERROR" false

/-- `Context.__RESULT`. -/
def RESULT_ID : Expr := .ident "__RESULT" false

/-- `build.undef()`: the identifier `undefined`. -/
def undefId : Expr := .ident "undefined" false

/-- `.name` of an identifier node (`addScopeVar` keys its map by it; every
id reaching it in the supported subset is an identifier). -/
def Expr.exprName : Expr → String
  | .ident n _ => n
  | _ => ""

/-- The ESTree `type` string of a statement (used by the
`/^((Do)?While|For(In)?)Statement$/` test in the `LabeledStatement`
handler). -/
def stmtType : Stmt → String
  | .exprStmt _ => "ExpressionStatement"
  | .debuggerStmt => "DebuggerStatement"
  | .labeled _ _ => "LabeledStatement"
  | .block _ => "BlockStatement"
  | .breakStmt _ => "BreakStatement"
  | .returnStmt _ => "ReturnStatement"
  | .continueStmt _ => "ContinueStatement"
  | .ifStmt _ _ _ => "IfStatement"
  | .whileStmt _ _ => "WhileStatement"
  | .doWhileStmt _ _ => "DoWhileStatement"
  | .forStmt _ _ _ _ => "ForStatement"
  | .emptyStmt => "EmptyStatement"
  | .switchStmt _ _ => "SwitchStatement"
  | .varDecl _ => "VariableDeclaration"
  | .funcDecl _ _ _ => "FunctionDeclaration"
  | .throwStmt _ => "ThrowStatement"
  | .tryStmt _ _ _ => "TryStatement"
  | .withStmt _ _ => "WithStatement"
  | .gotoRef _ => "ExpressionStatement"
  | .branchGoto _ _ => "IfStatement"
  | .otherS ty => ty

/-- The regex `/^((Do)?While|For(In)?)Statement$/` of the `LabeledStatement`
handler, deciding whether the labeled body is a loop (gets a continue
handle). -/
def isLoopType (t : String) : Bool :=
  t == "WhileStatement" || t == "DoWhileStatement" || t == "ForStatement" ||
    t == "ForInStatement"

/-- One slot of the goto table: the flags `_inserted` / `_confirmed` and the
`_gotoArg.value` target of one `Goto` object. -/
structure GotoRec where
  inserted : Bool
  target : Option Nat
  confirmed : Bool
  deriving DecidableEq, Repr

/-- One frame of `labelStack`: `{ name, goto }`. -/
structure Frame where
  name : String
  goto : Option Nat
  deriving DecidableEq, Repr

/-- The `Context` state.  `scopeVars` is the insertion-ordered map
`name ↦ VariableDeclarator` as a list of `(key, declarator id, declarator
init)`.  `freeVars` and `labelStack` are stacks with the head as the top
(the source uses array `push`/`pop` at the end); `pendingBreaks`,
`pendingReturns`, `pendingThrows` and `hadGotos` append at the end, matching
array order.  `gotos` is the table of `Goto` objects, indexed by creation
order. -/
structure Ctx where
  varCounter : Nat
  freeVars : List Expr
  scopeVars : List (String × Expr × Option Expr)
  statements : List Stmt
  labelCounter : Nat
  labelStack : List Frame
  pendingBreaks : List (String × Nat)
  pendingReturns : List Nat
  pendingThrows : List Nat
  hadGotos : List Nat
  gotos : List GotoRec
  deriving Repr

/-- `new Context()` (the constructor body is empty; every field starts at
its declared initial value). -/
def Ctx.empty : Ctx :=
  ⟨0, [], [], [], 0, [], [], [], [], [], []⟩

/-- `pos()`: the current statement count. -/
def Ctx.pos (c : Ctx) : Nat := c.statements.length

def pushStmt (c : Ctx) (s : Stmt) : Ctx :=
  { c with statements := c.statements ++ [s] }

/-- `addScopeVar(id)`: register a declarator for `id.name` if absent. -/
def Ctx.addScopeVar (c : Ctx) (id : Expr) : Ctx :=
  if c.scopeVars.any (fun sv => sv.1 == id.exprName) then c
  else { c with scopeVars := c.scopeVars ++ [(id.exprName, id, none)] }

/-- Overwrite the `init` of the declarator registered under `n`
(`addScopeVar(node.id).init = …` in the `FunctionDeclaration` handler). -/
def Ctx.setScopeVarInit (c : Ctx) (n : String) (ini : Option Expr) : Ctx :=
  { c with scopeVars :=
      c.scopeVars.map (fun sv => if sv.1 == n then (sv.1, sv.2.1, ini) else sv) }

/-- `hadGotos.add(p)` (a JS `Set`: adding an existing member is a no-op). -/
def Ctx.addHadGoto (c : Ctx) (p : Nat) : Ctx :=
  if c.hadGotos.contains p then c else { c with hadGotos := c.hadGotos ++ [p] }

def setGoto (c : Ctx) (g : Nat) (r : GotoRec) : Ctx :=
  { c with gotos := c.gotos.set g r }

/-- `Goto._confirm()`: once a goto is both inserted and resolved, record its
target position in `hadGotos`. -/
def gotoConfirm (c : Ctx) (g : Nat) : Ctx :=
  match c.gotos[g]? with
  | none => c
  | some r =>
    if r.confirmed then c
    else if r.inserted then
      match r.target with
      | some p => setGoto (c.addHadGoto p) g { r with confirmed := true }
      | none => c
    else c

/-- `Goto.getForInsertion()` minus returning the statement node: set
`_inserted` and confirm. -/
def markInserted (c : Ctx) (g : Nat) : Ctx :=
  match c.gotos[g]? with
  | none => c
  | some r => gotoConfirm (setGoto c g { r with inserted := true }) g

/-- `new Goto(this)`: append a fresh slot, return its index. -/
def createGoto (c : Ctx) : Ctx × Nat :=
  ({ c with gotos := c.gotos ++ [⟨false, none, false⟩] }, c.gotos.length)

/-- `Goto.insert()`: mark inserted and push the `GOTO` statement. -/
def insertGoto (c : Ctx) (g : Nat) : Ctx :=
  pushStmt (markInserted c g) (.gotoRef g)

/-- The successful body of `Goto.resolve()`: write the current position into
the target slot and confirm. -/
def resolveGotoCore (c : Ctx) (g : Nat) : Ctx :=
  match c.gotos[g]? with
  | none => c
  | some r => gotoConfirm (setGoto c g { r with target := some c.pos }) g

/-- `Goto.resolve()`: a second resolution throws
`GOTO was already resolved.`.  (The `none` branch is unreachable: every
index handed out comes from `createGoto`.) -/
def resolveGoto (c : Ctx) (g : Nat) : Except String Ctx :=
  match c.gotos[g]? with
  | none => .error "invalid GOTO handle"
  | some r =>
    if r.target.isSome then .error "GOTO was already resolved."
    else .ok (resolveGotoCore c g)

/-- `resolve` on an optional handle; `none` models the initial
`{ resolve() {} }` no-op of the `SwitchStatement` handler. -/
def resolveOptGoto (c : Ctx) : Option Nat → Except String Ctx
  | none => .ok c
  | some g => resolveGoto c g

/-- `createGotoToHere()`: fresh goto resolved immediately (a fresh slot is
never already resolved, so `resolve` cannot throw here). -/
def createGotoToHere (c : Ctx) : Ctx × Nat :=
  let p := createGoto c
  (resolveGotoCore p.1 p.2, p.2)

/-- `insertPendingGoto()`: fresh goto inserted immediately, resolved later. -/
def insertPendingGoto (c : Ctx) : Ctx × Nat :=
  let p := createGoto c
  (insertGoto p.1 p.2, p.2)

/-- `freeTempVar(id)`: only temporaries are pushed back to the free list. -/
def Ctx.freeTempVar (c : Ctx) (id : Expr) : Ctx :=
  if isTempVar id then { c with freeVars := id :: c.freeVars } else c

/-- `intoBlock(name, canContinue)`. -/
def intoBlock (c : Ctx) (name : String) (canContinue : Bool) : Ctx :=
  if canContinue then
    let p := createGotoToHere c
    { p.1 with labelStack := ⟨name, some p.2⟩ :: p.1.labelStack }
  else
    { c with labelStack := ⟨name, none⟩ :: c.labelStack }

/-- `leaveBlock()`: pop the label frame and resolve-and-drop every pending
break whose name matches it. -/
def Ctx.leaveBlock (c : Ctx) : Except String Ctx :=
  match c.labelStack with
  | [] => .error "Attempted to leave block when there was none."
  | label :: rest => do
    let step := fun (st : Ctx × List (String × Nat)) (brk : String × Nat) => do
      if brk.1 == label.name then
        let c1 ← resolveGoto st.1 brk.2
        pure (c1, st.2)
      else
        pure (st.1, st.2 ++ [brk])
    let r ← List.foldlM step ({ c with labelStack := rest }, ([] : List (String × Nat)))
      c.pendingBreaks
    .ok { r.1 with pendingBreaks := r.2 }

/-- `ContinueStatement` lookup: walk the label stack from the top, pick the
first frame that has a continue handle and whose name matches (any frame
with a handle, if the continue is unlabeled), and insert its back-edge. -/
def continueLookup (c : Ctx) (name : String) : List Frame → Except String Ctx
  | [] => .error ("Continue to invalid label " ++ name)
  | fr :: rest =>
    match fr.goto with
    | some g =>
      if fr.name == name || name == "" then .ok (insertGoto c g)
      else continueLookup c name rest
    | none => continueLookup c name rest

/-- The part of `Context.leave()` that runs before the scope-variable
prologue is built: the two sanity checks, resolution of pending
throws/returns to the epilogue, and the trailing `EmptyStatement` for a
jump target at the end.  (The `leadingComments` marking only decorates
statements for the printer; its content is exactly the membership of each
position in `hadGotos`, which `Ctx` already carries.) -/
def Ctx.leaveResolve (c : Ctx) : Except String Ctx :=
  if c.labelStack.length > 0 then
    .error ("Attempted to leave the context with non-empty label stack: " ++
      String.intercalate ", " ((c.labelStack.map Frame.name).reverse))
  else if c.pendingBreaks.length > 0 then
    .error ("Attempted to leave the context with unresolved break statements: " ++
      String.intercalate ", " (c.pendingBreaks.map (fun b => b.1)))
  else do
    let c ← List.foldlM resolveGoto c c.pendingThrows
    let c ← List.foldlM resolveGoto c c.pendingReturns
    let c := if c.hadGotos.contains c.statements.length then pushStmt c .emptyStmt else c
    .ok c

/-- Bake the goto table into an emitted statement: `gotoRef` becomes the
`GOTO(<target>)` call the patched AST holds, `branchGoto` the
`if (test) GOTO(<target>)` statement. -/
def gotoArgVal (gotos : List GotoRec) (g : Nat) : LitVal :=
  match gotos[g]? with
  | some r =>
    match r.target with
    | some n => .num n
    | none => .undef
  | none => .undef

def materializeStmt (gotos : List GotoRec) : Stmt → Stmt
  | .gotoRef g => .exprStmt (.call (.ident "GOTO" false) [.lit (gotoArgVal gotos g)])
  | .branchGoto t g =>
    .ifStmt t (.exprStmt (.call (.ident "GOTO" false) [.lit (gotoArgVal gotos g)])) none
  | s => s

def materializeList (gotos : List GotoRec) (l : List Stmt) : List Stmt :=
  l.map (materializeStmt gotos)

mutual

/-- `Context.transformExpr(expr)`: dispatch on the node type; a kind absent
from `exprHandlers` raises `Unhandled type …`. -/
def transformExpr : Nat → Ctx → Expr → Except String (Ctx × Expr)
  | 0, _, _ => .error "out of fuel"
  | f+1, c, e =>
    match e with
    | .lit _ => .ok (c, e)
    | .ident _ _ => .ok (c, e)
    | .func id params body => do
      -- FunctionExpression: lower the body in a fresh Context, replace the
      -- body statement list with the lowered list, then leave().  The node
      -- captures the statement array before `leave` builds the prologue, so
      -- it sees the pushes and goto patches of `leaveResolve` but not the
      -- prepended declaration block (`leave` rebinds `this.statements` to a
      -- fresh array).
      let fc ← funcContextOf f body
      let fc2 ← fc.leaveResolve
      let bodyStmts := fc2.statements
      let fc3 ← leaveFinal f fc2
      .ok (c, .func id params (.block (materializeList fc3.gotos bodyStmts)))
    | .member obj prop computed =>
      let property := if computed then prop else
        match prop with
        | .ident n _ => Expr.lit (.str n)
        | _ => Expr.lit .undef
      execForeign f c "GET_PROPERTY" [obj, property]
    | .assignE left _op right =>
      match left with
      | .member obj prop computed =>
        let property := if computed then prop else
          match prop with
          | .ident n _ => Expr.lit (.str n)
          | _ => Expr.lit .undef
        execForeign f c "SET_PROPERTY" [obj, property, right]
      | _ => do
        let r ← assign f c left right true
        .ok (r.1, left)
    | .call callee args =>
      match callee with
      | .member obj prop computed => do
        -- `thisExpr = callee.object = context.useTempVar(callee.object)`:
        -- the member node's object is replaced by the temporary.
        let p ← useTempVar f c obj
        execForeign f p.1 "CALL" ([Expr.member p.2 prop computed, p.2] ++ args)
      | _ => execForeign f c "CALL" ([callee, undefId] ++ args)
    | .unary op argument => do
      let p ← useTempVar f c argument
      .ok (p.1.freeTempVar p.2, Expr.unary op p.2)
    | .binary l op r => do
      let pl ← useTempVar f c l
      let pr ← useTempVar f pl.1 r
      let c := (pr.1.freeTempVar pl.2).freeTempVar pr.2
      .ok (c, Expr.binary pl.2 op pr.2)
    | .otherE ty => .error ("Unhandled type " ++ ty ++ ".")

/-- `new Context(); funcContext.transformStmt(node.body)` of the
`FunctionExpression` handler: the fresh per-function context. -/
def funcContextOf : Nat → Stmt → Except String Ctx
  | 0, _ => .error "out of fuel"
  | f+1, body => transformStmt f Ctx.empty body

/-- `Context.assign(id, init, insert?)`: emit `id = transformExpr(init)`
(pushed unless `insert === false`) and return the statement. -/
def assign : Nat → Ctx → Expr → Expr → Bool → Except String (Ctx × Stmt)
  | 0, _, _, _, _ => .error "out of fuel"
  | f+1, c, id, ini, ins => do
    let p ← transformExpr f c ini
    let stmt := Stmt.exprStmt (Expr.assignE id "=" p.2)
    let c := if ins then pushStmt p.1 stmt else p.1
    .ok (c, stmt)

/-- `Context.useTempVar(init)`: an existing temporary or a simple literal is
returned unchanged; anything else is bound to a recycled or fresh `$n` via
an emitted assignment. -/
def useTempVar : Nat → Ctx → Expr → Except String (Ctx × Expr)
  | f, c, ini =>
    if isTempVar ini || isSimpleLiteral ini then .ok (c, ini)
    else
      match f with
      | 0 => .error "out of fuel"
      | f+1 =>
        match c.freeVars with
        | id :: rest => do
          let p ← assign f { c with freeVars := rest } id ini true
          .ok (p.1, id)
        | [] => do
          let id := Expr.ident ("$" ++ toString c.varCounter) true
          let c := { c with varCounter := c.varCounter + 1 }
          let c := c.addScopeVar id
          let p ← assign f c id ini true
          .ok (p.1, id)

/-- `args.map(arg => this.useTempVar(arg))`, sequentially. -/
def useTempVarList : Nat → Ctx → List Expr → Except String (Ctx × List Expr)
  | 0, _, _ => .error "out of fuel"
  | _+1, c, [] => .ok (c, [])
  | f+1, c, a :: rest => do
    let p ← useTempVar f c a
    let q ← useTempVarList f p.1 rest
    .ok (q.1, p.2 :: q.2)

/-- `Context.execForeign(name, args)`: bind every argument to a temporary,
emit the helper call, free the argument temporaries, then emit the
throw-check `if (__ERROR) GOTO(…)` whose goto is queued in `pendingThrows`;
the expression's value is `__RESULT`. -/
def execForeign : Nat → Ctx → String → List Expr → Except String (Ctx × Expr)
  | 0, _, _, _ => .error "out of fuel"
  | f+1, c, name, args => do
    let p ← useTempVarList f c args
    let c := pushStmt p.1 (.exprStmt (.call (.ident name false) p.2))
    let c := p.2.foldl Ctx.freeTempVar c
    let q := createGoto c
    let c := markInserted q.1 q.2
    let c := pushStmt c (.branchGoto ERROR_ID q.2)
    let c := { c with pendingThrows := c.pendingThrows ++ [q.2] }
    .ok (c, RESULT_ID)

/-- `Context.insertBranchStart(test)`: emit `if (useTempVar(!test))
GOTO(…)`, free the bound test, return the goto for later resolution. -/
def insertBranchStart : Nat → Ctx → Expr → Except String (Ctx × Nat)
  | 0, _, _ => .error "out of fuel"
  | f+1, c, test => do
    let q := createGoto c
    let p ← useTempVar f q.1 (.unary "!" test)
    let c := markInserted p.1 q.2
    let c := c.freeTempVar p.2
    let c := pushStmt c (.branchGoto p.2 q.2)
    .ok (c, q.2)

/-- `Context.shadowVar(id, init)`: save `id` into a temporary
(`outerParam`), assign `init` into `id`; returns the temporary for the
later `unshadow`. -/
def shadowVar : Nat → Ctx → Expr → Expr → Except String (Ctx × Expr)
  | 0, _, _, _ => .error "out of fuel"
  | f+1, c, id, ini => do
    let c := c.addScopeVar id
    let p ← useTempVar f c id
    let q ← assign f p.1 id ini true
    .ok (q.1, p.2)

/-- The `unshadow` closure returned by `shadowVar`: restore the saved value
and release the temporary. -/
def unshadow : Nat → Ctx → Expr → Expr → Except String Ctx
  | 0, _, _, _ => .error "out of fuel"
  | f+1, c, id, outerParam => do
    let p ← assign f c id outerParam true
    .ok (p.1.freeTempVar outerParam)

/-- `Context.transformStmt(stmt)`: dispatch on the node type; a kind absent
from `stmtHandlers` raises `Unhandled type …`.  (`gotoRef`/`branchGoto` are
emitted forms that never occur in lowering input.) -/
def transformStmt : Nat → Ctx → Stmt → Except String Ctx
  | 0, _, _ => .error "out of fuel"
  | f+1, c, s =>
    match s with
    | .exprStmt e => do
      let p ← transformExpr f c e
      .ok p.1
    | .debuggerStmt => .ok (pushStmt c .debuggerStmt)
    | .labeled lab body => do
      let c := intoBlock c lab (isLoopType (stmtType body))
      let c ← transformStmt f c body
      c.leaveBlock
    | .block body => transformStmtList f c body
    | .breakStmt lab =>
      let q := insertPendingGoto c
      .ok { q.1 with pendingBreaks :=
        q.1.pendingBreaks ++ [((lab.getD ""), q.2)] }
    | .returnStmt argument => do
      let c ← match argument with
        | some a => do
          let p ← assign f c RESULT_ID a true
          pure p.1
        | none => pure c
      let q := insertPendingGoto c
      .ok { q.1 with pendingReturns := q.1.pendingReturns ++ [q.2] }
    | .continueStmt lab => continueLookup c (lab.getD "") c.labelStack
    | .ifStmt test consequent alternate => do
      let p ← insertBranchStart f c test
      let c ← transformStmt f p.1 consequent
      match alternate with
      | some a => do
        let q := insertPendingGoto c
        let c ← resolveGoto q.1 p.2
        let c ← transformStmt f c a
        resolveGoto c q.2
      | none => resolveGoto c p.2
    | .whileStmt test body => do
      let st := createGotoToHere c
      let p ← insertBranchStart f st.1 test
      let c := intoBlock p.1 "" true
      let c ← transformStmt f c body
      let c := insertGoto c st.2
      let c ← resolveGoto c p.2
      c.leaveBlock
    | .doWhileStmt body test => do
      let st := createGotoToHere c
      let c := intoBlock st.1 "" true
      let c ← transformStmt f c body
      let p ← insertBranchStart f c test
      let c := insertGoto p.1 st.2
      let c ← resolveGoto c p.2
      c.leaveBlock
    | .forStmt ini test update body => do
      let c ← match ini with
        | some (.decl ds) => transformStmt f c (.varDecl ds)
        | some (.expr e) => transformStmt f c (.exprStmt e)
        | none => pure c
      let st := createGotoToHere c
      let pr ← match test with
        | some t => do
          let p ← insertBranchStart f st.1 t
          pure (p.1, some p.2)
        | none => pure (st.1, (none : Option Nat))
      let c := intoBlock pr.1 "" true
      let c ← transformStmt f c body
      let c ← match update with
        | some u => transformStmt f c (.exprStmt u)
        | none => pure c
      let c := insertGoto c st.2
      let c ← match pr.2 with
        | some r => resolveGoto c r
        | none => pure c
      c.leaveBlock
    | .emptyStmt => .ok c
    | .switchStmt disc cases => do
      let c := intoBlock c "" false
      let p ← useTempVar f c disc
      let r ← switchCases f p.1 p.2 cases none none
      let c := r.1.freeTempVar p.2
      let c ← match r.2.2 with
        | some dc => do
          let c ← resolveOptGoto c dc.1
          let c ← transformStmtList f c dc.2.1
          pure (insertGoto c dc.2.2)
        | none => pure c
      let c ← resolveOptGoto c r.2.1
      c.leaveBlock
    | .varDecl decls => varDeclList f c decls
    | .funcDecl id params body =>
      -- `addScopeVar(node.id).init = Object.assign(node, { type:
      -- 'FunctionExpression' })`: the declaration node itself, with only
      -- its type rewritten, becomes the declarator's initializer.
      .ok ((c.addScopeVar (.ident id false)).setScopeVarInit id
        (some (.func (some id) params body)))
    | .throwStmt argument => do
      let p ← assign f c ERROR_ID argument true
      let q := insertPendingGoto p.1
      .ok { q.1 with pendingThrows := q.1.pendingThrows ++ [q.2] }
    | .tryStmt blk handler finalizer => do
      let c ← transformStmt f c blk
      let c ← match handler with
        | some h =>
          if c.pendingThrows.isEmpty then pure c
          else do
            let q := insertPendingGoto c
            let c ← List.foldlM resolveGoto q.1 q.1.pendingThrows
            let c := { c with pendingThrows := [] }
            let sp ← shadowVar f c h.1 ERROR_ID
            let a ← assign f sp.1 ERROR_ID undefId true
            let c ← transformStmt f a.1 h.2
            let c ← unshadow f c h.1 sp.2
            resolveGoto c q.2
        | none => pure c
      match finalizer with
      | some fin => transformStmt f c fin
      | none => .ok c
    | .withStmt _ _ => .error "Why?!!!"
    | .gotoRef _ => .error "Unhandled type GotoStatement."
    | .branchGoto _ _ => .error "Unhandled type BranchingGotoStatement."
    | .otherS ty => .error ("Unhandled type " ++ ty ++ ".")

/-- `node.body.forEach(node => context.transformStmt(node))`. -/
def transformStmtList : Nat → Ctx → List Stmt → Except String Ctx
  | 0, _, _ => .error "out of fuel"
  | _+1, c, [] => .ok c
  | f+1, c, s :: rest => do
    let c ← transformStmt f c s
    transformStmtList f c rest

/-- The `node.cases.reduce(…)` of the `SwitchStatement` handler, threading
`prevLeave` (the fall-through handle; `none` is the initial no-op) and the
recorded default case `(to, consequent, from)`. -/
def switchCases : Nat → Ctx → Expr → List SwitchCase → Option Nat →
    Option (Option Nat × List Stmt × Nat) →
    Except String (Ctx × Option Nat × Option (Option Nat × List Stmt × Nat))
  | 0, _, _, _, _, _ => .error "out of fuel"
  | _+1, c, _, [], prevLeave, defaultCase => .ok (c, prevLeave, defaultCase)
  | f+1, c, localId, (SwitchCase.mk testOpt conseq) :: rest, prevLeave, defaultCase =>
    match testOpt with
    | some t => do
      let p ← insertBranchStart f c (.binary localId "===" t)
      let c ← resolveOptGoto p.1 prevLeave
      let c ← transformStmtList f c conseq
      let q := insertPendingGoto c
      let c ← resolveGoto q.1 p.2
      switchCases f c localId rest (some q.2) defaultCase
    | none =>
      let q := createGoto c
      switchCases f q.1 localId rest (some q.2) (some (prevLeave, conseq, q.2))

/-- The `VariableDeclaration` handler body: declare each id, lower each
initializer as an assignment. -/
def varDeclList : Nat → Ctx → List (Expr × Option Expr) → Except String Ctx
  | 0, _, _ => .error "out of fuel"
  | _+1, c, [] => .ok c
  | f+1, c, d :: rest => do
    let c := c.addScopeVar d.1
    let c ← match d.2 with
      | some ini => do
        let p ← assign f c d.1 ini true
        pure p.1
      | none => pure c
    varDeclList f c rest

/-- The scope-variable prologue of `Context.leave()`: when any scope
variable exists, deferred initializers become assignments (`insert ===
false`, so `transformExpr` runs but nothing is pushed mid-walk), every
declarator's init is cleared, and `statements` is rebound to
`[declaration] ++ inits ++ statements` — a fresh array, not seen by a
function node that captured the old one. -/
def leaveFinal : Nat → Ctx → Except String Ctx
  | 0, _ => .error "out of fuel"
  | f+1, c =>
    if c.scopeVars.isEmpty then .ok c
    else do
      let step := fun (st : Ctx × List (Expr × Option Expr) × List Stmt)
          (sv : String × Expr × Option Expr) => do
        match sv.2.2 with
        | some ini => do
          let p ← assign f st.1 sv.2.1 ini false
          pure (p.1, st.2.1 ++ [(sv.2.1, (none : Option Expr))], st.2.2 ++ [p.2])
        | none => pure (st.1, st.2.1 ++ [(sv.2.1, (none : Option Expr))], st.2.2)
      let r ← List.foldlM step (c, ([] : List (Expr × Option Expr)), ([] : List Stmt))
        c.scopeVars
      .ok { r.1 with
        statements := Stmt.varDecl r.2.1 :: (r.2.2 ++ r.1.statements),
        scopeVars := r.1.scopeVars.map (fun sv => (sv.1, sv.2.1, (none : Option Expr))) }

end

/-- `Context.leave()` in full. -/
def leave (f : Nat) (c : Ctx) : Except String Ctx := do
  let c ← c.leaveResolve
  leaveFinal f c

/-- The driver block at the bottom of `src/index.ts`: a fresh `Context` with
`__ERROR` and `__RESULT` pre-declared, the program body lowered statement by
statement, then `leave()`. -/
def lowerProgramCtx (f : Nat) (body : List Stmt) : Except String Ctx := do
  let c := (Ctx.empty.addScopeVar ERROR_ID).addScopeVar RESULT_ID
  let c ← transformStmtList f c body
  leave f c

/-- The emitted program: the final statement list with goto targets baked
in (what `escodegen` receives). -/
def lowerProgram (f : Nat) (body : List Stmt) : Except String (List Stmt) :=
  (lowerProgramCtx f body).map (fun c => materializeList c.gotos c.statements)


/-! ## Facts about the goto table used by the claims -/

/-- `setGoto` writes slot `g`; reading slot `g` back yields the new record. -/
theorem setGoto_getElem_at (d : Ctx) (g : Nat) (r2 : GotoRec) (h : g < d.gotos.length) :
    ((setGoto d g r2).gotos)[g]? = some r2 := by
  simp only [setGoto]
  exact List.getElem?_set_eq_of_lt _ h

/-- Recording a jump-target position touches only `hadGotos`. -/
theorem addHadGoto_gotos (d : Ctx) (p : Nat) : (Ctx.addHadGoto d p).gotos = d.gotos := by
  unfold Ctx.addHadGoto
  split <;> rfl

/-- `Goto._confirm` never changes the target slot of the goto it confirms. -/
theorem gotoConfirm_target_at (d : Ctx) (g : Nat) :
    ((gotoConfirm d g).gotos[g]?).map GotoRec.target = (d.gotos[g]?).map GotoRec.target := by
  unfold gotoConfirm
  rcases hd : d.gotos[g]? with _ | r
  · simp [hd]
  · have hlt := (List.getElem?_eq_some_iff.1 hd).1
    rcases hc : r.confirmed
    · rcases hi : r.inserted
      · simp [hd, hc, hi]
      · rcases ht : r.target with _ | p
        · simp [hd, hc, hi, ht]
        · have hlt2 : g < ((Ctx.addHadGoto d p).gotos).length := by
            rw [addHadGoto_gotos]; exact hlt
          simp only [hd, hc, hi, ht, Bool.false_eq_true, if_false, if_true,
            setGoto_getElem_at (Ctx.addHadGoto d p) g ⟨true, some p, true⟩ hlt2,
            Option.map_some']
    · simp [hd, hc]

/-! ## Concrete input programs and their lowering traces

The contexts below are the exact values the lowering computes; each trace
lemma pins one of them down, and the claims read their observations off
these literals. -/

/-- The driver's starting context (`__ERROR` and `__RESULT` pre-declared). -/
def startCtx : Ctx := (Ctx.empty.addScopeVar ERROR_ID).addScopeVar RESULT_ID

/-- `a.b(c);` — a method call whose receiver temporary is also consumed by
the inner `GET_PROPERTY` lowering. -/
def progMethodCall : List Stmt :=
  [.exprStmt (.call (.member (.ident "a" false) (.ident "b" false) false)
    [.ident "c" false])]

/-- The context after lowering `a.b(c);` from `startCtx`. -/
def mcCtx : Ctx :=
  { varCounter := 2,
    freeVars := [Expr.ident "$0" true, Expr.ident "$0" true, Expr.ident "$1" true],
    scopeVars := [("__ERROR", Expr.ident "__ERROR" false, none),
                  ("__RESULT", Expr.ident "__RESULT" false, none),
                  ("$0", Expr.ident "$0" true, none),
                  ("$1", Expr.ident "$1" true, none)],
    statements := [Stmt.exprStmt (Expr.assignE (Expr.ident "$0" true) "=" (Expr.ident "a" false)),
                   Stmt.exprStmt
                     (Expr.call
                       (Expr.ident "GET_PROPERTY" false)
                       [Expr.ident "$0" true, Expr.lit (LitVal.str "b")]),
                   Stmt.branchGoto (Expr.ident "__ERROR" false) 0,
                   Stmt.exprStmt (Expr.assignE (Expr.ident "$1" true) "=" (Expr.ident "__RESULT" false)),
                   Stmt.exprStmt (Expr.assignE (Expr.ident "$0" true) "=" (Expr.ident "c" false)),
                   Stmt.exprStmt
                     (Expr.call
                       (Expr.ident "CALL" false)
                       [Expr.ident "$1" true, Expr.ident "$0" true, Expr.ident "$0" true]),
                   Stmt.branchGoto (Expr.ident "__ERROR" false) 1],
    labelCounter := 0,
    labelStack := [],
    pendingBreaks := [],
    pendingReturns := [],
    pendingThrows := [0, 1],
    hadGotos := [],
    gotos := [{ inserted := true, target := none, confirmed := false },
              { inserted := true, target := none, confirmed := false }] }

set_option maxHeartbeats 8000000 in
theorem methodCall_trace :
    transformStmtList 13 startCtx progMethodCall = .ok mcCtx := by rfl

/-- `a.b;` — a statement whose lowering leaves a pending throw. -/
def preStmt : Stmt := .exprStmt (.member (.ident "a" false) (.ident "b" false) false)

/-- `try {} catch (e) {}` — a try whose block is empty. -/
def tryEmpty : Stmt := .tryStmt (.block []) (some (.ident "e" false, .block [])) none

/-- `a.b; try {} catch (e) {}` — a potentially-throwing statement before a
`try` with a catch clause and an empty block. -/
def progPreTryThrow : List Stmt := [preStmt, tryEmpty]

/-- The context after lowering `a.b;` from `startCtx`: the throw-check goto
0 (inserted at statement 2) is pending and unresolved. -/
def preTryMid : Ctx :=
  { varCounter := 1,
    freeVars := [Expr.ident "$0" true],
    scopeVars := [("__ERROR", Expr.ident "__ERROR" false, none),
                  ("__RESULT", Expr.ident "__RESULT" false, none),
                  ("$0", Expr.ident "$0" true, none)],
    statements := [Stmt.exprStmt (Expr.assignE (Expr.ident "$0" true) "=" (Expr.ident "a" false)),
                   Stmt.exprStmt
                     (Expr.call
                       (Expr.ident "GET_PROPERTY" false)
                       [Expr.ident "$0" true, Expr.lit (LitVal.str "b")]),
                   Stmt.branchGoto (Expr.ident "__ERROR" false) 0],
    labelCounter := 0,
    labelStack := [],
    pendingBreaks := [],
    pendingReturns := [],
    pendingThrows := [0],
    hadGotos := [],
    gotos := [{ inserted := true, target := none, confirmed := false }] }

/-- The context after then lowering `try {} catch (e) {}`: goto 0 has been
resolved to position 4, the catch prologue. -/
def preTryCtx : Ctx :=
  { varCounter := 1,
    freeVars := [Expr.ident "$0" true],
    scopeVars := [("__ERROR", Expr.ident "__ERROR" false, none),
                  ("__RESULT", Expr.ident "__RESULT" false, none),
                  ("$0", Expr.ident "$0" true, none),
                  ("e", Expr.ident "e" false, none)],
    statements := [Stmt.exprStmt (Expr.assignE (Expr.ident "$0" true) "=" (Expr.ident "a" false)),
                   Stmt.exprStmt
                     (Expr.call
                       (Expr.ident "GET_PROPERTY" false)
                       [Expr.ident "$0" true, Expr.lit (LitVal.str "b")]),
                   Stmt.branchGoto (Expr.ident "__ERROR" false) 0,
                   Stmt.gotoRef 1,
                   Stmt.exprStmt (Expr.assignE (Expr.ident "$0" true) "=" (Expr.ident "e" false)),
                   Stmt.exprStmt (Expr.assignE (Expr.ident "e" false) "=" (Expr.ident "__ERROR" false)),
                   Stmt.exprStmt
                     (Expr.assignE (Expr.ident "__ERROR" false) "=" (Expr.ident "undefined" false)),
                   Stmt.exprStmt (Expr.assignE (Expr.ident "e" false) "=" (Expr.ident "$0" true))],
    labelCounter := 0,
    labelStack := [],
    pendingBreaks := [],
    pendingReturns := [],
    pendingThrows := [],
    hadGotos := [4, 8],
    gotos := [{ inserted := true, target := some 4, confirmed := true },
              { inserted := true, target := some 8, confirmed := true }] }

set_option maxHeartbeats 4000000 in
theorem preTry_step1 : transformStmt 8 startCtx preStmt = .ok preTryMid := by rfl

set_option maxHeartbeats 8000000 in
theorem preTry_step2 : transformStmt 7 preTryMid tryEmpty = .ok preTryCtx := by rfl

set_option maxHeartbeats 4000000 in
theorem preTry_trace :
    transformStmtList 9 startCtx progPreTryThrow = .ok preTryCtx := by
  have h0 : transformStmtList 9 startCtx progPreTryThrow =
      (transformStmt 8 startCtx preStmt) >>=
        (fun c => transformStmtList 8 c [tryEmpty]) := rfl
  rw [h0, preTry_step1]
  show transformStmtList 8 preTryMid [tryEmpty] = .ok preTryCtx
  have h1 : transformStmtList 8 preTryMid [tryEmpty] =
      (transformStmt 7 preTryMid tryEmpty) >>=
        (fun c => transformStmtList 7 c []) := rfl
  rw [h1, preTry_step2]
  rfl

/-- `for (;; i = i + 1) { continue; }` — a for-loop with an update
expression and a continue in its body (the claim's own `i++` form is
outside the supported subset — `UpdateExpression` has no handler — so the
update is written `i = i + 1`, as the claim itself restates it). -/
def progForContinue : List Stmt :=
  [ .forStmt none none
      (some (.assignE (.ident "i" false) "=" (.binary (.ident "i" false) "+" (.lit (.num 1)))))
      (.block [.continueStmt none]) ]

/-- The context after lowering `for (;; i = i + 1) { continue; }`: goto 0
is the loop's back-edge handle (`start`), goto 1 is the continue handle
pushed by `intoBlock`; both were resolved at position 0. -/
def forContCtx : Ctx :=
  { varCounter := 1,
    freeVars := [Expr.ident "$0" true],
    scopeVars := [("__ERROR", Expr.ident "__ERROR" false, none),
                  ("__RESULT", Expr.ident "__RESULT" false, none),
                  ("$0", Expr.ident "$0" true, none)],
    statements := [Stmt.gotoRef 1,
                   Stmt.exprStmt (Expr.assignE (Expr.ident "$0" true) "=" (Expr.ident "i" false)),
                   Stmt.exprStmt
                     (Expr.assignE
                       (Expr.ident "i" false)
                       "="
                       (Expr.binary (Expr.ident "$0" true) "+" (Expr.lit (LitVal.num 1)))),
                   Stmt.gotoRef 0],
    labelCounter := 0,
    labelStack := [],
    pendingBreaks := [],
    pendingReturns := [],
    pendingThrows := [],
    hadGotos := [0],
    gotos := [{ inserted := true, target := some 0, confirmed := true },
              { inserted := true, target := some 0, confirmed := true }] }

set_option maxHeartbeats 8000000 in
theorem forCont_trace :
    transformStmtList 10 startCtx progForContinue = .ok forContCtx := by rfl

/-- `function () { throw x; }` — a function body. -/
def funcThrowBody : Stmt := .block [.throwStmt (.ident "x" false)]

/-- `if (a) {}`. -/
def progIf : List Stmt := [.ifStmt (.ident "a" false) (.block []) none]

/-- `while (a) {}`. -/
def progWhile : List Stmt := [.whileStmt (.ident "a" false) (.block [])]

/-- `L: { break M; }` — a break whose label matches no enclosing frame. -/
def progBadBreak : List Stmt := [.labeled "L" (.block [.breakStmt (some "M")])]

/-! ## Claims -/

/-- C1.  The claim states the temporary pool is reference-counted and a
temporary's name returns to the free list only when its counter reaches
zero, so a name is never handed out again while any holder still references
it.  The code keeps no counter at all: lowering `a.b(c);` binds the
receiver `a` to `$0` (statement 0), the inner `GET_PROPERTY` lowering frees
`$0` while the enclosing `CALL` still holds it as its `this` argument, a
later `useTempVar` recycles `$0` for the argument `c` (statement 4,
`$0 = c`), and the emitted `CALL($1, $0, $0)` (statement 5) therefore
receives `c`'s value, not `a`, as the receiver; the final free list even
holds `$0` twice. -/
theorem c1_receiver_temp_clobbered :
    (transformStmtList 13 startCtx progMethodCall).map
      (fun c => (c.statements[0]?, c.statements[4]?, c.statements[5]?, c.freeVars)) =
    .ok (some (.exprStmt (.assignE (.ident "$0" true) "=" (.ident "a" false))),
         some (.exprStmt (.assignE (.ident "$0" true) "=" (.ident "c" false))),
         some (.exprStmt (.call (.ident "CALL" false)
           [.ident "$1" true, .ident "$0" true, .ident "$0" true])),
         [.ident "$0" true, .ident "$0" true, .ident "$1" true]) := by
  rw [methodCall_trace]
  rfl

/-- C2.  The claim states a pending throw emitted by a statement that
precedes a `TryStatement` (and is not inside its block) is NOT resolved to
that later try's catch handler.  The code resolves the whole
`pendingThrows` queue when it reaches a try with a catch clause: for
`a.b; try {} catch (e) {}` the try block is empty — it can throw nothing —
yet the throw-check of the pre-try `a.b` (goto 0, the conditional jump at
statement 2) is resolved to position 4, the catch prologue (`$0 = e`, the
`shadowVar` save, right after the `allGood` skip jump at statement 3), and
the pending queue is left empty. -/
theorem c2_pre_try_throw_caught_by_later_catch :
    (transformStmtList 9 startCtx progPreTryThrow).map
      (fun c => (c.gotos[0]?, c.pendingThrows, c.statements[2]?,
        c.statements[3]?, c.statements[4]?)) =
    .ok (some ⟨true, some 4, true⟩, [],
         some (.branchGoto ERROR_ID 0),
         some (.gotoRef 1),
         some (.exprStmt (.assignE (.ident "$0" true) "=" (.ident "e" false)))) := by
  rw [preTry_trace]
  rfl

/-- C3.  The claim states a continue in a for-loop with an update targets
the entry of the update expression.  In the code, the loop's continue
handle (`intoBlock`'s `createGotoToHere`) resolves to the body entry
instead: for `for (;; i = i + 1) { continue; }` the continue handle is
goto 1 with target 0 — and the continue's own jump is the statement at
position 0, so the loop compiles to a self-loop `GOTO(0)` at the body
entry — while the update's entry is statement 1 (`$0 = i`, evaluating
`i + 1`), which is never reached, and 0 ≠ 1.  (With an init and a test the
same shift occurs: the handle is created only after the test branch has
been emitted, so it still resolves to the body entry, not the update.) -/
theorem c3_continue_targets_body_entry_not_update :
    (transformStmtList 10 startCtx progForContinue).map
      (fun c => (c.gotos[1]?.map GotoRec.target, c.statements[0]?, c.statements[1]?)) =
    .ok (some (some 0), some (.gotoRef 1),
         some (.exprStmt (.assignE (.ident "$0" true) "=" (.ident "i" false)))) ∧
    (0 : Nat) ≠ 1 := by
  constructor
  · rw [forCont_trace]
    rfl
  · decide

set_option maxHeartbeats 4000000 in
/-- C4 counterexample.  Lowering `function () { throw x; }` in a fresh
`Context` yields a context whose scope-variable map is empty — `__ERROR`
is not pre-declared, so it cannot appear in any emitted declaration
prologue — and whose first emitted statement is the throw's own
`__ERROR = x`, with no clearing assignment before the body's statements;
the returned function node's body likewise starts with `__ERROR = x`. -/
theorem c4_counterexample :
    (funcContextOf 7 funcThrowBody).map
      (fun fc => (fc.scopeVars.map (fun sv => sv.1), fc.statements[0]?)) =
    .ok ([], some (.exprStmt (.assignE ERROR_ID "=" (.ident "x" false)))) ∧
    (transformExpr 8 startCtx (.func none [] funcThrowBody)).map Prod.snd =
    .ok (.func none [] (.block
      [ .exprStmt (.assignE ERROR_ID "=" (.ident "x" false)),
        .exprStmt (.call (.ident "GOTO" false) [.lit (.num 2)]),
        .emptyStmt ])) := ⟨by rfl, by rfl⟩

/-- C4 (amended).  A `FunctionExpression` is lowered in a fresh `Context`
whose constructor declares nothing: `__ERROR` is neither pre-declared nor
cleared at function entry.  Only the top-level driver context pre-declares
`__ERROR` (and `__RESULT`). -/
theorem c4_amended :
    (∀ (f : Nat) (body : Stmt), funcContextOf (f + 1) body = transformStmt f Ctx.empty body) ∧
    Ctx.empty.scopeVars = [] ∧ Ctx.empty.statements = [] ∧
    startCtx.scopeVars.map (fun sv => sv.1) = ["__ERROR", "__RESULT"] :=
  ⟨fun _ _ => rfl, rfl, rfl, by rfl⟩

set_option maxHeartbeats 1000000 in
/-- C5 counterexample.  The claim states `useTempVar` returns any
identifier (named local or `__ERROR`) unchanged without allocating.  The
code's reusability test is `isTempVar || isSimpleLiteral`, so a plain
identifier `a` — and `__ERROR` itself — is bound to a fresh temporary via
an emitted assignment. -/
theorem c5_counterexample :
    (useTempVar 4 Ctx.empty (.ident "a" false)).map
      (fun p => (p.2, p.1.statements)) =
    .ok (.ident "$0" true,
         [.exprStmt (.assignE (.ident "$0" true) "=" (.ident "a" false))]) ∧
    (useTempVar 4 Ctx.empty ERROR_ID).map (fun p => (p.2, p.1.statements)) =
    .ok (.ident "$0" true,
         [.exprStmt (.assignE (.ident "$0" true) "=" ERROR_ID)]) := ⟨by rfl, by rfl⟩

/-- C5 (amended).  `useTempVar` returns its argument unchanged — without
touching the context, allocating a temporary, or emitting an assignment —
exactly when the argument is an existing temporary or a simple (non-RegExp)
literal; named identifiers, `__ERROR` included, are bound to a temporary
like any other non-reusable expression (see the counterexample). -/
theorem c5_amended (f : Nat) (c : Ctx) (e : Expr)
    (h : (isTempVar e || isSimpleLiteral e) = true) :
    useTempVar f c e = .ok (c, e) := by
  unfold useTempVar
  rw [h]
  simp

theorem c5_amended_witness :
    (isTempVar (Expr.ident "$5" true) || isSimpleLiteral (Expr.ident "$5" true)) = true ∧
    useTempVar 0 Ctx.empty (Expr.ident "$5" true) = .ok (Ctx.empty, Expr.ident "$5" true) :=
  ⟨by decide, c5_amended 0 Ctx.empty (Expr.ident "$5" true) (by decide)⟩

set_option maxHeartbeats 4000000 in
/-- C6 counterexample.  The claim states the emitted output is one `var`
declaration followed by a sequence of `LabeledStatement`s whose `GOTO`
arguments are string labels or conditional expressions.  Lowering
`if (a) {}` emits the declaration followed by plain expression/if
statements — no `LabeledStatement` at all — and the jump is
`if ($0) GOTO(3)` with a numeric statement index as argument. -/
theorem c6_counterexample :
    lowerProgram 10 progIf =
    .ok [ .varDecl [(ERROR_ID, none), (RESULT_ID, none),
            (.ident "$0" true, none), (.ident "$1" true, none)],
          .exprStmt (.assignE (.ident "$1" true) "=" (.ident "a" false)),
          .exprStmt (.assignE (.ident "$0" true) "=" (.unary "!" (.ident "$1" true))),
          .ifStmt (.ident "$0" true)
            (.exprStmt (.call (.ident "GOTO" false) [.lit (.num 3)])) none,
          .emptyStmt ] ∧
    [ Stmt.varDecl [(ERROR_ID, none), (RESULT_ID, none),
        (.ident "$0" true, none), (.ident "$1" true, none)],
      Stmt.exprStmt (.assignE (.ident "$1" true) "=" (.ident "a" false)),
      Stmt.exprStmt (.assignE (.ident "$0" true) "=" (.unary "!" (.ident "$1" true))),
      Stmt.ifStmt (.ident "$0" true)
        (.exprStmt (.call (.ident "GOTO" false) [.lit (.num 3)])) none,
      Stmt.emptyStmt ].map stmtType =
    ["VariableDeclaration", "ExpressionStatement", "ExpressionStatement",
     "IfStatement", "EmptyStatement"] := ⟨by rfl, by rfl⟩

set_option maxHeartbeats 8000000 in
/-- C6 (amended).  The emitted output is one `var` declaration listing the
scope variables without initializers, followed by the flat lowered
statement list (no labeled blocks): unconditional jumps are
`ExpressionStatement`s `GOTO(n)` and conditional jumps are `IfStatement`s
`if (t) GOTO(n)` without alternate, where `n` is a numeric statement index
(jump-target positions are recorded in `hadGotos` and rendered as line
comments, not as block labels).  Shown on `while (a) {}`. -/
theorem c6_amended :
    lowerProgram 10 progWhile =
    .ok [ .varDecl [(ERROR_ID, none), (RESULT_ID, none),
            (.ident "$0" true, none), (.ident "$1" true, none)],
          .exprStmt (.assignE (.ident "$1" true) "=" (.ident "a" false)),
          .exprStmt (.assignE (.ident "$0" true) "=" (.unary "!" (.ident "$1" true))),
          .ifStmt (.ident "$0" true)
            (.exprStmt (.call (.ident "GOTO" false) [.lit (.num 4)])) none,
          .exprStmt (.call (.ident "GOTO" false) [.lit (.num 0)]),
          .emptyStmt ] ∧
    (lowerProgramCtx 10 progWhile).map (fun c => c.hadGotos) = .ok [0, 4] :=
  ⟨by rfl, by rfl⟩

/-- C7 counterexample.  The claim states `Context.leave` checks
`varCounter == freeVars.length` (no locked temporaries) and that the
temp-balance condition is verified at every statement-handler boundary.
Lowering `a.b(c);` end to end — statement handler boundary and `leave`
included — succeeds even though the context finishes with `varCounter = 2`
and a free list of length 3 (the receiver temporary was freed twice), so
neither check exists. -/
theorem c7_counterexample :
    (transformStmtList 13 startCtx progMethodCall).map
      (fun c => (c.varCounter, c.freeVars.length)) = .ok (2, 3) ∧
    (lowerProgramCtx 13 progMethodCall).map
      (fun c => (c.varCounter, c.freeVars.length)) = .ok (2, 3) ∧
    (2 : Nat) ≠ 3 := by
  refine ⟨by rw [methodCall_trace]; rfl, ?_, by decide⟩
  have h0 : lowerProgramCtx 13 progMethodCall =
      (transformStmtList 13 startCtx progMethodCall) >>= (fun c => leave 13 c) := rfl
  rw [h0, methodCall_trace]
  rfl

/-- C7 (amended).  `Context.leave` performs exactly two sanity checks — a
non-empty label stack and unresolved pending breaks each raise an error —
and performs no locked-temporaries check: with those two stacks empty and
nothing pending, `leaveResolve` succeeds regardless of `varCounter` and
`freeVars` (no statement handler checks the balance either, as the
counterexample's successful run shows). -/
theorem c7_amended :
    (∀ c : Ctx, c.labelStack.length > 0 →
      c.leaveResolve = .error ("Attempted to leave the context with non-empty label stack: " ++
        String.intercalate ", " ((c.labelStack.map Frame.name).reverse))) ∧
    (∀ c : Ctx, c.labelStack.length = 0 → c.pendingBreaks.length > 0 →
      c.leaveResolve = .error ("Attempted to leave the context with unresolved break statements: " ++
        String.intercalate ", " (c.pendingBreaks.map (fun b => b.1)))) ∧
    Ctx.leaveResolve ⟨5, [], [], [], 0, [], [], [], [], [], []⟩ =
      .ok ⟨5, [], [], [], 0, [], [], [], [], [], []⟩ := by
  refine ⟨fun c h => ?_, fun c h0 h1 => ?_, by rfl⟩
  · unfold Ctx.leaveResolve
    rw [if_pos h]
  · unfold Ctx.leaveResolve
    rw [if_neg (by omega), if_pos h1]

theorem c7_amended_witness :
    (Ctx.mk 0 [] [] [] 0 [⟨"L", none⟩] [] [] [] [] []).labelStack.length > 0 ∧
    (Ctx.mk 0 [] [] [] 0 [⟨"L", none⟩] [] [] [] [] []).leaveResolve =
      .error ("Attempted to leave the context with non-empty label stack: " ++
        String.intercalate ", "
          (((Ctx.mk 0 [] [] [] 0 [⟨"L", none⟩] [] [] [] [] []).labelStack.map
            Frame.name).reverse)) :=
  ⟨by decide, c7_amended.1 (Ctx.mk 0 [] [] [] 0 [⟨"L", none⟩] [] [] [] [] []) (by decide)⟩

/-- C8.  A jump handle's target is written at most once: if the handle's
slot is still unresolved, `resolve` succeeds and writes the current
statement position into the target; if the slot already holds a target,
`resolve` fails with the `GOTO was already resolved.` error (and, the
computation being aborted by the error, the target is left unchanged). -/
theorem c8_goto_single_resolution (c : Ctx) (g : Nat) (r : GotoRec)
    (hg : c.gotos[g]? = some r) :
    (r.target = none →
      resolveGoto c g = .ok (resolveGotoCore c g) ∧
      ((resolveGotoCore c g).gotos[g]?).map GotoRec.target =
        some (some c.statements.length)) ∧
    (∀ v, r.target = some v →
      resolveGoto c g = .error "GOTO was already resolved.") := by
  have hlt : g < c.gotos.length := (List.getElem?_eq_some_iff.1 hg).1
  constructor
  · intro hnone
    constructor
    · simp only [resolveGoto, hg, hnone, Option.isSome_none, Bool.false_eq_true,
        if_false]
    · simp only [resolveGotoCore, hg, gotoConfirm_target_at,
        setGoto_getElem_at _ _ _ hlt, Option.map_some']
      rfl
  · intro v hv
    simp only [resolveGoto, hg, hv, Option.isSome_some, if_true]

theorem c8_witness :
    (Ctx.mk 0 [] [] [] 0 [] [] [] [] [] [⟨false, some 3, false⟩]).gotos[0]? =
      some ⟨false, some 3, false⟩ ∧
    resolveGoto (Ctx.mk 0 [] [] [] 0 [] [] [] [] [] [⟨false, some 3, false⟩]) 0 =
      .error "GOTO was already resolved." :=
  ⟨rfl, (c8_goto_single_resolution
    (Ctx.mk 0 [] [] [] 0 [] [] [] [] [] [⟨false, some 3, false⟩]) 0
    ⟨false, some 3, false⟩ rfl).2 3 rfl⟩

set_option maxHeartbeats 2000000 in
/-- C9.  A break whose label matches no enclosing frame is not rejected at
the break site: lowering `L: { break M; }` succeeds, emitting the pending
jump (`gotoRef 0`) and enqueuing it under `"M"`; the entry survives the
`leaveBlock` that pops frame `L` (the final label stack is empty while the
queue still holds `("M", 0)`), and the failure surfaces only at
`Context.leave` as the unresolved-break-statements error. -/
theorem c9_unmatched_break_surfaces_at_leave :
    (transformStmtList 6 startCtx progBadBreak).map
      (fun c => (c.statements, c.pendingBreaks, c.labelStack)) =
    .ok ([.gotoRef 0], [("M", 0)], []) ∧
    ((transformStmtList 6 startCtx progBadBreak).bind Ctx.leaveResolve) =
      .error "Attempted to leave the context with unresolved break statements: M" ∧
    lowerProgram 6 progBadBreak =
      .error "Attempted to leave the context with unresolved break statements: M" :=
  ⟨by rfl, by rfl, by rfl⟩

set_option maxHeartbeats 8000000 in
/-- C10.  Lowering rewrites input nodes (rendered here as the handlers
returning the updated nodes): (1) for `a.b()` the method callee's object is
replaced by the receiver temporary, so the emitted `GET_PROPERTY` receives
`$0` rather than `a` and the call is `CALL($1, $0)`; (2) the
`FunctionDeclaration` handler stores, as the scope variable's initializer,
the declaration's own id/params/body with only the node type rewritten to
`FunctionExpression`; (3) the `FunctionExpression` handler returns the node
with its body's statement array replaced by the lowered statement list. -/
theorem c10_ast_rewrites :
    (transformExpr 11 startCtx
        (.call (.member (.ident "a" false) (.ident "b" false) false) [])).map
      (fun p => (p.1.statements[1]?, p.1.statements[4]?)) =
    .ok (some (.exprStmt (.call (.ident "GET_PROPERTY" false)
           [.ident "$0" true, .lit (.str "b")])),
         some (.exprStmt (.call (.ident "CALL" false)
           [.ident "$1" true, .ident "$0" true]))) ∧
    (∀ (f : Nat) (c : Ctx) (id : String) (ps : List String) (body : Stmt),
      transformStmt (f + 1) c (.funcDecl id ps body) =
      .ok ((c.addScopeVar (.ident id false)).setScopeVarInit id
        (some (.func (some id) ps body)))) ∧
    (transformExpr 8 startCtx
        (.func none [] (.block [.returnStmt (some (.lit (.num 1)))]))).map Prod.snd =
    .ok (.func none [] (.block
      [ .exprStmt (.assignE RESULT_ID "=" (.lit (.num 1))),
        .exprStmt (.call (.ident "GOTO" false) [.lit (.num 2)]),
        .emptyStmt ])) :=
  ⟨by rfl, fun _ _ _ _ _ => rfl, by rfl⟩

end Cfg
